import Mathlib

/-!
Verification of the fare calculator of the ByaheCapstone reservation app
(`Main/models.py`, method `Reservation.calculate_fare`).

The Python method is embedded shallowly: Python floats are modelled as exact
rationals (on the fixed decimal route distances and integer seat counts that
occur here, CPython's binary floats round to the same 2-decimal outputs, as
the source's own worked examples show), Python dict `.get` with default 0
becomes a total function on `String`, `str.split(sep)[0]` becomes truncation
of the character list at the first occurrence of the separator, and Python's
builtin `round(x, 2)` (round-half-to-even) becomes `pyRound2`.
-/

/-- True when `pat` is an initial segment of `s` (character lists). -/
def startsList : List Char → List Char → Bool
  | [], _ => true
  | _ :: _, [] => false
  | a :: pat, b :: s => a == b && startsList pat s

/-- The part of a character list before the first occurrence of `sep`;
the whole list when `sep` does not occur.  This is Python's
`s.split(sep)[0]` for a nonempty separator. -/
def takeUntilSep (sep : List Char) : List Char → List Char
  | [] => []
  | c :: rest => if startsList sep (c :: rest) then [] else c :: takeUntilSep sep rest

/-- Python `s.split('_pick')[0]` from line 132 of `models.py`. -/
def splitPick (s : String) : String := String.mk (takeUntilSep "_pick".data s.data)

/-- Python `s.split('_drop')[0]` from line 132 of `models.py`. -/
def splitDrop (s : String) : String := String.mk (takeUntilSep "_drop".data s.data)

/-- The `distance_map` dict of `Reservation.calculate_fare` (lines 124-128)
together with the `.get` default of 0 (lines 131-134): kilometres for each of
the three defined ordered routes, 0 for any other pair. -/
def distance_map (p d : String) : ℚ :=
  if p = "lucban_terminal" ∧ d = "lucena_grand_terminal" then 232/10
  else if p = "lucban_terminal" ∧ d = "tayabas_city_public_market" then 129/10
  else if p = "tayabas_city_public_market" ∧ d = "lucena_grand_terminal" then 92/10
  else 0

/-- The `seat_map` dict of `Reservation.calculate_fare` (lines 141-145)
together with the `.get` default of 0 (line 146). -/
def seat_map (v : String) : ℚ :=
  if v = "Toyota Corolla" then 6
  else if v = "Modernized PUV V1" then 15
  else if v = "Modernized PUV V2" then 15
  else 0

/-- Python's builtin `round` to the nearest integer: round half to even. -/
def roundHalfEven (x : ℚ) : ℤ :=
  if x - ⌊x⌋ < 1/2 then ⌊x⌋
  else if (1:ℚ)/2 < x - ⌊x⌋ then ⌊x⌋ + 1
  else if 2 ∣ ⌊x⌋ then ⌊x⌋ else ⌊x⌋ + 1

/-- Python's `round(x, 2)` (line 153 of `models.py`) on exact rationals. -/
def pyRound2 (x : ℚ) : ℚ := (roundHalfEven (x * 100) : ℚ) / 100

/-- The body of `Reservation.calculate_fare` (lines 122-153 of `models.py`)
as a function of the four fields it reads. -/
def calculate_fare (pickup_location dropoff_location vehicle : String)
    (roundtrip : Bool) : ℚ :=
  let distance := distance_map (splitPick pickup_location) (splitDrop dropoff_location)
  let fare_per_km : ℚ := 17 / 4
  let base_fare := distance * fare_per_km
  let seat_count := seat_map vehicle
  let total_fare := base_fare * seat_count
  let total_fare := if roundtrip then total_fare * 2 else total_fare
  pyRound2 total_fare

/-- The `PICKUP_LOCATION_CHOICES` list of the `Reservation` model
(lines 84-88 of `models.py`): stored code paired with display label. -/
def PICKUP_LOCATION_CHOICES : List (String × String) :=
  [("lucena_grand_terminal_pick", "Lucena Grand Terminal"),
   ("groto_lucban_quezon_pick", "Groto Lucban Quezon"),
   ("tayabas_city_quezon_pick", "Tayabas City Quezon")]

/-- The `DROPOFF_LOCATION_CHOICES` list of the `Reservation` model
(lines 90-94 of `models.py`). -/
def DROPOFF_LOCATION_CHOICES : List (String × String) :=
  [("lucena_grand_terminal_drop", "Lucena Grand Terminal"),
   ("groto_lucban_quezon_drop", "Groto Lucban Quezon"),
   ("tayabas_city_quezon_drop", "Tayabas City Quezon")]

/-- The `choices` list of the `vehicle` field (lines 101-105 of `models.py`). -/
def VEHICLE_CHOICES : List (String × String) :=
  [("Toyota Corolla", "Class A - Toyota Corolla - 6 Seats"),
   ("Modernized PUV V1", "Class B - Modernized PUV V1 - 15 Seats"),
   ("Modernized PUV V2", "Class B - Modernized PUV V2 - 15 Seats")]

/-- A `Reservation` record (lines 73-117 of `models.py`); Django column types
are modelled by simple Lean types, nullable columns by `Option`. -/
structure Reservation where
  user : Nat
  full_name : String
  contact_number : String
  pickup_date : Option Nat
  dropoff_date : Option Nat
  pickup_time : Option Nat
  dropoff_time : Option Nat
  pickup_location : String
  dropoff_location : String
  vehicle : String
  payment_method : String
  total_fare : ℚ
  roundtrip : Bool
  gcash_receipt : Option String
  created_at : Nat

/-- The method `Reservation.calculate_fare` as called on a record: it reads
exactly the fields `pickup_location`, `dropoff_location`, `vehicle` and
`roundtrip` of `self` and touches nothing else. -/
def Reservation.fare (r : Reservation) : ℚ :=
  calculate_fare r.pickup_location r.dropoff_location r.vehicle r.roundtrip

/-- Removal of a trailing suffix, and only a trailing suffix: the words
"stripping the suffix" taken literally.  When `s` does not end with `suf`
it is returned unchanged. -/
def removeSuffixCS (suf s : List Char) : List Char :=
  if startsList suf.reverse s.reverse then (s.reverse.drop suf.length).reverse else s

/-- Stripping a literal `_pick` SUFFIX, per the specification's wording. -/
def specStripPick (s : String) : String := String.mk (removeSuffixCS "_pick".data s.data)

/-- Stripping a literal `_drop` SUFFIX, per the specification's wording. -/
def specStripDrop (s : String) : String := String.mk (removeSuffixCS "_drop".data s.data)

/-- The fare formula in the words of the specification: round to two
decimals the product `distance * (17/4) * seat_count * (2 if roundtrip
else 1)`, the distance obtained by stripping the `_pick` and `_drop`
suffixes and consulting the route table with default 0. -/
def specFare (pickup_location dropoff_location vehicle : String)
    (roundtrip : Bool) : ℚ :=
  pyRound2 (distance_map (specStripPick pickup_location) (specStripDrop dropoff_location)
    * (17/4) * seat_map vehicle * (if roundtrip then 2 else 1))

/-! Evaluation lemmas for the lookup tables at concrete inputs. -/

theorem dist_lucban_lucena :
    distance_map (splitPick "lucban_terminal_pick") (splitDrop "lucena_grand_terminal_drop")
      = 232/10 := rfl

theorem dist_lucban_tayabas :
    distance_map (splitPick "lucban_terminal_pick")
      (splitDrop "tayabas_city_public_market_drop") = 129/10 := rfl

theorem dist_pickup_cex :
    distance_map (splitPick "lucban_terminal_pickup") (splitDrop "lucena_grand_terminal_drop")
      = 232/10 := rfl

theorem dist_pickup_cex_spec :
    distance_map (specStripPick "lucban_terminal_pickup")
      (specStripDrop "lucena_grand_terminal_drop") = 0 := rfl

theorem seat_toyota : seat_map "Toyota Corolla" = 6 := rfl

theorem seat_puv1 : seat_map "Modernized PUV V1" = 15 := rfl

/-! Arithmetic helper lemmas about the rounding function. -/

theorem floor_half_cent : ⌊(164475/2 : ℚ)⌋ = 82237 := by
  rw [Int.floor_eq_iff]
  constructor <;> norm_num

theorem fract_half_cent : Int.fract (164475/2 : ℚ) = 1/2 := by
  rw [Int.fract, floor_half_cent]
  norm_num

theorem pyRound2_int_div_100 (n : ℤ) : pyRound2 ((n : ℚ) / 100) = (n : ℚ) / 100 := by
  have h : ((n : ℚ) / 100) * 100 = (n : ℚ) := by field_simp
  rw [pyRound2, h, roundHalfEven]
  norm_num

theorem pyRound2_zero : pyRound2 0 = 0 := by
  have h : (0 : ℚ) = ((0 : ℤ) : ℚ) / 100 := by norm_num
  rw [h, pyRound2_int_div_100]

/-- When the route lookup yields distance 0, the fare is 0 whatever the
vehicle and round-trip flag. -/
theorem fare_of_distance_zero (p d v : String) (rt : Bool)
    (h : distance_map (splitPick p) (splitDrop d) = 0) :
    calculate_fare p d v rt = 0 := by
  simp only [calculate_fare, h]
  cases rt <;> simp [pyRound2_zero]

/-- When the vehicle lookup yields 0 seats, the fare is 0 whatever the
route and round-trip flag. -/
theorem fare_of_seat_zero (p d v : String) (rt : Bool)
    (h : seat_map v = 0) :
    calculate_fare p d v rt = 0 := by
  simp only [calculate_fare, h]
  cases rt <;> simp [pyRound2_zero]

/-- Evaluation: the Toyota Corolla one-way fare on the defined
lucban-to-lucena route. -/
theorem fare_eval_toyota_oneway :
    calculate_fare "lucban_terminal_pick" "lucena_grand_terminal_drop"
      "Toyota Corolla" false = 591.60 := by
  norm_num [calculate_fare, dist_lucban_lucena, seat_toyota, pyRound2, roundHalfEven]

/-! Claim theorems. -/

/-- Claim C1 (counterexample): the fare formula with literal SUFFIX stripping
does not match the code on every string.  On the pickup code
"lucban_terminal_pickup" the code's `split('_pick')[0]` truncates at the
first occurrence of `_pick` and yields the defined terminal
"lucban_terminal" (fare 591.60), while stripping a `_pick` suffix leaves the
code unchanged and the route lookup misses (fare 0). -/
theorem fare_spec_strip_cex :
    calculate_fare "lucban_terminal_pickup" "lucena_grand_terminal_drop"
      "Toyota Corolla" false = 591.60 ∧
    specFare "lucban_terminal_pickup" "lucena_grand_terminal_drop"
      "Toyota Corolla" false = 0 ∧
    calculate_fare "lucban_terminal_pickup" "lucena_grand_terminal_drop"
      "Toyota Corolla" false ≠
      specFare "lucban_terminal_pickup" "lucena_grand_terminal_drop"
        "Toyota Corolla" false := by
  have h1 : calculate_fare "lucban_terminal_pickup" "lucena_grand_terminal_drop"
      "Toyota Corolla" false = 591.60 := by
    norm_num [calculate_fare, dist_pickup_cex, seat_toyota, pyRound2, roundHalfEven]
  have h2 : specFare "lucban_terminal_pickup" "lucena_grand_terminal_drop"
      "Toyota Corolla" false = 0 := by
    simp [specFare, dist_pickup_cex_spec, pyRound2_zero]
  refine ⟨h1, h2, ?_⟩
  rw [h1, h2]
  norm_num

/-- Claim C1 (amended): on every input whose location codes are stripped the
same way by suffix removal and by the code's truncation at the first
occurrence of the marker (as is the case for every code in which `_pick` or
`_drop` appears only as a trailing suffix, in particular all declared choice
codes), `calculate_fare` returns the specified
`round(distance * (17/4) * seat_count * (2 if roundtrip else 1), 2)`. -/
theorem calculate_fare_matches_spec_formula (p d v : String) (rt : Bool)
    (hp : splitPick p = specStripPick p) (hd : splitDrop d = specStripDrop d) :
    calculate_fare p d v rt = specFare p d v rt := by
  simp only [calculate_fare, specFare, ← hp, ← hd]
  cases rt
  · simp
  · simp

/-- Witness for the amended claim C1 at a concrete input. -/
theorem calculate_fare_matches_spec_formula_witness :
    splitPick "lucban_terminal_pick" = specStripPick "lucban_terminal_pick" ∧
    splitDrop "lucena_grand_terminal_drop" = specStripDrop "lucena_grand_terminal_drop" ∧
    calculate_fare "lucban_terminal_pick" "lucena_grand_terminal_drop"
        "Toyota Corolla" false
      = specFare "lucban_terminal_pick" "lucena_grand_terminal_drop"
        "Toyota Corolla" false :=
  ⟨rfl, rfl, calculate_fare_matches_spec_formula _ _ _ _ rfl rfl⟩

/-- Claim C2: every pickup code of `PICKUP_LOCATION_CHOICES` combined with
every dropoff code of `DROPOFF_LOCATION_CHOICES` misses the route table
after stripping, so the fare is 0 for every vehicle and round-trip flag. -/
theorem declared_choices_zero_fare (p d v : String) (rt : Bool)
    (hp : p ∈ PICKUP_LOCATION_CHOICES.map Prod.fst)
    (hd : d ∈ DROPOFF_LOCATION_CHOICES.map Prod.fst) :
    calculate_fare p d v rt = 0 := by
  simp only [PICKUP_LOCATION_CHOICES, DROPOFF_LOCATION_CHOICES, List.map_cons,
    List.map_nil, List.mem_cons, List.not_mem_nil, or_false] at hp hd
  rcases hp with rfl | rfl | rfl <;> rcases hd with rfl | rfl | rfl <;>
    exact fare_of_distance_zero _ _ _ _ rfl

/-- Witness for claim C2 at a concrete declared choice pair. -/
theorem declared_choices_zero_fare_witness :
    "lucena_grand_terminal_pick" ∈ PICKUP_LOCATION_CHOICES.map Prod.fst ∧
    "lucena_grand_terminal_drop" ∈ DROPOFF_LOCATION_CHOICES.map Prod.fst ∧
    calculate_fare "lucena_grand_terminal_pick" "lucena_grand_terminal_drop"
      "Toyota Corolla" false = 0 :=
  ⟨by decide, by decide, declared_choices_zero_fare _ _ _ _ (by decide) (by decide)⟩

/-- Claim C3: the Toyota Corolla one-way fare from lucban_terminal to
lucena_grand_terminal is 591.60. -/
theorem fare_toyota_oneway_lucban_lucena :
    calculate_fare "lucban_terminal_pick" "lucena_grand_terminal_drop"
      "Toyota Corolla" false = 591.60 :=
  fare_eval_toyota_oneway

/-- Claim C4: the Modernized PUV V1 round-trip fare from lucban_terminal to
lucena_grand_terminal is 2958.00. -/
theorem fare_puv1_roundtrip_lucban_lucena :
    calculate_fare "lucban_terminal_pick" "lucena_grand_terminal_drop"
      "Modernized PUV V1" true = 2958.00 := by
  norm_num [calculate_fare, dist_lucban_lucena, seat_puv1, pyRound2, roundHalfEven]

/-- Claim C5 (counterexample): rounding does break the exact factor of two.
On the lucban-to-tayabas route with a 15-seat vehicle the unrounded one-way
total is 822.375, which rounds to 822.38, while the round-trip total 1644.75
is exact, so the round-trip fare is not twice the one-way fare. -/
theorem roundtrip_not_double_cex :
    calculate_fare "lucban_terminal_pick" "tayabas_city_public_market_drop"
      "Modernized PUV V1" true ≠
    2 * calculate_fare "lucban_terminal_pick" "tayabas_city_public_market_drop"
      "Modernized PUV V1" false := by
  norm_num [calculate_fare, dist_lucban_tayabas, seat_puv1, pyRound2, roundHalfEven,
    fract_half_cent, floor_half_cent]

/-- Claim C5 (amended): whenever the unrounded one-way total
`distance * (17/4) * seat_count` is an exact multiple of 0.01 (every defined
route and vehicle combination except lucban_terminal to
tayabas_city_public_market with a 15-seat vehicle), the round-trip fare is
exactly twice the one-way fare. -/
theorem roundtrip_double_of_cent_exact (p d v : String)
    (h : ∃ n : ℤ, distance_map (splitPick p) (splitDrop d) * (17 / 4) * seat_map v
      = (n : ℚ) / 100) :
    calculate_fare p d v true
      = 2 * calculate_fare p d v false := by
  obtain ⟨n, hn⟩ := h
  show pyRound2 (distance_map (splitPick p) (splitDrop d) * (17 / 4) * seat_map v * 2)
      = 2 * pyRound2 (distance_map (splitPick p) (splitDrop d) * (17 / 4) * seat_map v)
  rw [hn]
  rw [show ((n : ℚ) / 100) * 2 = ((2 * n : ℤ) : ℚ) / 100 by push_cast; ring]
  rw [pyRound2_int_div_100, pyRound2_int_div_100]
  push_cast
  ring

/-- Witness for the amended claim C5 at a concrete input. -/
theorem roundtrip_double_of_cent_exact_witness :
    (∃ n : ℤ, distance_map (splitPick "lucban_terminal_pick")
        (splitDrop "lucena_grand_terminal_drop") * (17 / 4) * seat_map "Toyota Corolla"
        = (n : ℚ) / 100) ∧
    calculate_fare "lucban_terminal_pick" "lucena_grand_terminal_drop"
        "Toyota Corolla" true
      = 2 * calculate_fare "lucban_terminal_pick" "lucena_grand_terminal_drop"
        "Toyota Corolla" false :=
  ⟨⟨59160, by rw [dist_lucban_lucena, seat_toyota]; norm_num⟩,
   roundtrip_double_of_cent_exact _ _ _
     ⟨59160, by rw [dist_lucban_lucena, seat_toyota]; norm_num⟩⟩

/-- Claim C6: the route table defines lucban_terminal to lucena_grand_terminal
with distance 23.2, yet for the reversed reservation inputs the lookup misses
and the fare is 0 for every vehicle and round-trip flag. -/
theorem reversed_route_zero_fare :
    distance_map "lucban_terminal" "lucena_grand_terminal" = 23.2 ∧
    ∀ (v : String) (rt : Bool),
      calculate_fare "lucena_grand_terminal_pick" "lucban_terminal_drop" v rt = 0 := by
  constructor
  · rw [show distance_map "lucban_terminal" "lucena_grand_terminal" = 232/10 from rfl]
    norm_num
  · intro v rt
    exact fare_of_distance_zero _ _ _ _ rfl

/-- Claim C7 (counterexample): the fare is not invariant under exchanging the
pickup and dropoff terminals: the defined direction gives 591.60 for a
Toyota Corolla while the reversed direction gives 0. -/
theorem fare_not_symmetric_cex :
    calculate_fare "lucban_terminal_pick" "lucena_grand_terminal_drop"
      "Toyota Corolla" false ≠
    calculate_fare "lucena_grand_terminal_pick" "lucban_terminal_drop"
      "Toyota Corolla" false := by
  rw [fare_eval_toyota_oneway,
    fare_of_distance_zero "lucena_grand_terminal_pick" "lucban_terminal_drop"
      "Toyota Corolla" false rfl]
  norm_num

/-- Claim C7 (amended): the route table is keyed by ORDERED terminal pairs;
each of the three routes is defined in one direction only, the reversed pair
falls to the default distance 0, and hence the fare is not invariant under
exchanging the terminals. -/
theorem route_table_ordered_pairs :
    distance_map "lucban_terminal" "lucena_grand_terminal" = 232/10 ∧
    distance_map "lucena_grand_terminal" "lucban_terminal" = 0 ∧
    distance_map "lucban_terminal" "tayabas_city_public_market" = 129/10 ∧
    distance_map "tayabas_city_public_market" "lucban_terminal" = 0 ∧
    distance_map "tayabas_city_public_market" "lucena_grand_terminal" = 92/10 ∧
    distance_map "lucena_grand_terminal" "tayabas_city_public_market" = 0 ∧
    calculate_fare "lucena_grand_terminal_pick" "lucban_terminal_drop"
      "Toyota Corolla" false = 0 :=
  ⟨rfl, rfl, rfl, rfl, rfl, rfl, fare_of_distance_zero _ _ _ _ rfl⟩

/-- Claim C8: any vehicle string outside the three entries of the seat table
yields fare 0 on every route and round-trip flag, including routes with a
defined non-zero distance. -/
theorem unknown_vehicle_zero_fare (p d v : String) (rt : Bool)
    (hv : v ∉ VEHICLE_CHOICES.map Prod.fst) :
    calculate_fare p d v rt = 0 := by
  apply fare_of_seat_zero
  simp only [VEHICLE_CHOICES, List.map_cons, List.map_nil, List.mem_cons,
    List.not_mem_nil, or_false, not_or] at hv
  simp only [seat_map]
  rw [if_neg hv.1, if_neg hv.2.1, if_neg hv.2.2]

/-- Witness for claim C8: an unlisted vehicle on a defined route. -/
theorem unknown_vehicle_zero_fare_witness :
    "Jeepney" ∉ VEHICLE_CHOICES.map Prod.fst ∧
    calculate_fare "lucban_terminal_pick" "lucena_grand_terminal_drop"
      "Jeepney" false = 0 :=
  ⟨by decide, unknown_vehicle_zero_fare _ _ _ _ (by decide)⟩

/-- Claim C9: when the stripped pickup/dropoff pair is none of the three
defined routes, `calculate_fare` silently returns 0 for every vehicle and
round-trip flag (the embedding is a total function, mirroring that the
Python method raises no exception on any input). -/
theorem unknown_route_zero_fare (p d v : String) (rt : Bool)
    (h : ¬ ((splitPick p = "lucban_terminal" ∧ splitDrop d = "lucena_grand_terminal") ∨
         (splitPick p = "lucban_terminal" ∧ splitDrop d = "tayabas_city_public_market") ∨
         (splitPick p = "tayabas_city_public_market" ∧
           splitDrop d = "lucena_grand_terminal"))) :
    calculate_fare p d v rt = 0 := by
  rw [not_or, not_or] at h
  apply fare_of_distance_zero
  simp only [distance_map]
  rw [if_neg h.1, if_neg h.2.1, if_neg h.2.2]

/-- Witness for claim C9 at a concrete undefined route. -/
theorem unknown_route_zero_fare_witness :
    ¬ ((splitPick "somewhere_pick" = "lucban_terminal" ∧
         splitDrop "elsewhere_drop" = "lucena_grand_terminal") ∨
       (splitPick "somewhere_pick" = "lucban_terminal" ∧
         splitDrop "elsewhere_drop" = "tayabas_city_public_market") ∨
       (splitPick "somewhere_pick" = "tayabas_city_public_market" ∧
         splitDrop "elsewhere_drop" = "lucena_grand_terminal")) ∧
    calculate_fare "somewhere_pick" "elsewhere_drop" "Toyota Corolla" false = 0 :=
  ⟨by decide, unknown_route_zero_fare _ _ _ _ (by decide)⟩

/-- Claim C10: the fare of a reservation depends on exactly its four fields
pickup_location, dropoff_location, vehicle and roundtrip: two records that
agree on these and differ everywhere else have equal fares (and the
embedding computes the fare without touching any record field). -/
theorem fare_depends_only_on_four_fields (r1 r2 : Reservation)
    (hp : r1.pickup_location = r2.pickup_location)
    (hd : r1.dropoff_location = r2.dropoff_location)
    (hv : r1.vehicle = r2.vehicle)
    (hr : r1.roundtrip = r2.roundtrip) :
    Reservation.fare r1 = Reservation.fare r2 := by
  simp only [Reservation.fare]
  rw [hp, hd, hv, hr]

/-- Witness for claim C10: two reservations that agree only on the four fare
inputs and differ in user, names, dates, times, payment method, stored fare,
receipt and timestamp still get the same fare. -/
theorem fare_depends_only_on_four_fields_witness :
    Reservation.fare
      (Reservation.mk 1 "Ana Cruz" "09170000001" (some 10) (some 11) (some 8)
        (some 17) "lucban_terminal_pick" "lucena_grand_terminal_drop" "Toyota Corolla"
        "gcash" 0 false none 100)
    = Reservation.fare
      (Reservation.mk 2 "Ben Reyes" "09990000002" none none none none
        "lucban_terminal_pick" "lucena_grand_terminal_drop" "Toyota Corolla"
        "cash" 999 false (some "receipts/x.png") 200) :=
  fare_depends_only_on_four_fields _ _ rfl rfl rfl rfl
